import Mathlib

/-!
Shallow embedding of the coverage-execution engine of this repository
(`src/lib.rs`, `src/statemachine/linux.rs`).  OS calls (waitpid, ptrace,
continue, memory peeks) are modelled as oracle inputs; the state-machine
handlers are translated function by function from the Rust source.
-/

namespace Tarpaulin

/-- Signals relevant to the state machine (from nix::sys::signal::Signal). -/
inductive Signal
  | SIGTRAP
  | SIGSTOP
  | SIGSEGV
  | other (n : Nat)
deriving DecidableEq, Repr

/-- Statuses returned by waitpid (from nix::sys::wait::WaitStatus). -/
inductive WaitStatus
  | StillAlive
  | Stopped (pid : Int) (sig : Signal)
  | PtraceEvent (pid : Int) (sig : Signal) (event : Int)
  | Signaled (pid : Int) (sig : Signal) (coredump : Bool)
  | Exited (pid : Int) (code : Int)
  | Continued (pid : Int)
deriving DecidableEq, Repr

/-- Ptrace event code from libc. -/
def PTRACE_EVENT_FORK : Int := 1

/-- Ptrace event code from libc. -/
def PTRACE_EVENT_VFORK : Int := 2

/-- Ptrace event code from libc. -/
def PTRACE_EVENT_CLONE : Int := 3

/-- Ptrace event code from libc. -/
def PTRACE_EVENT_EXEC : Int := 4

/-- Ptrace event code from libc. -/
def PTRACE_EVENT_EXIT : Int := 6

/-- States of the test state machine (statemachine module). -/
inductive TestState
  | Start
  | Initialise
  | Waiting
  | Stopped
  | End (code : Int)
  | Unrecoverable
  | Abort
deriving DecidableEq, Repr

/-- TestState::wait_state constructs the Waiting state. -/
def TestState.wait_state : TestState := TestState.Waiting

/-- Modelled from the spec: `TestState::is_finished` lives in the
statemachine module file that is not among the provided sources; the spec
lists the terminal states as `End`, `Unrecoverable` and `Abort`. -/
def TestState.is_finished : TestState → Bool
  | TestState.End _ => true
  | TestState.Unrecoverable => true
  | TestState.Abort => true
  | _ => false

/-- Program configuration fields used by the engine (config module). -/
structure Config where
  verbose : Bool
  count : Bool
  forward_signals : Bool
  run_ignored : Bool
  varargs : List String
deriving DecidableEq, Repr

/-- Source location of a trace (spec data model). -/
structure SourceLocation where
  file : String
  line : Nat
deriving DecidableEq, Repr

/-- Coverage statistic attached to a trace. -/
inductive CoverageStat
  | Line (hits : Nat)
deriving DecidableEq, Repr

/-- A trace: one coverable source line with an optional machine address. -/
structure Trace where
  location : SourceLocation
  address : Option Nat
  stats : CoverageStat
deriving DecidableEq, Repr

/-- Modelled from the spec: the TraceMap type lives in the traces module,
which is not among the provided sources; per the spec it is an ordered
collection of Traces whose primary index is the address. -/
abbrev TraceMap := List Trace

/-- Hits recorded in a trace. -/
def traceHits (t : Trace) : Nat :=
  match t.stats with
  | CoverageStat.Line h => h

/-- Modelled from the spec: `TraceMap::get_trace_mut` looks a trace up by
address (the primary index); it yields the first trace whose address is the
given one. -/
def get_trace? (tm : TraceMap) (addr : Nat) : Option Trace :=
  List.find? (fun t => decide (t.address = some addr)) tm

/-- The hit-increment applied by the coverage-collection path: the first
trace whose address matches has its Line hit count increased by one, all
other entries are untouched. -/
def bumpTrace : TraceMap → Nat → TraceMap
  | [], _ => []
  | t :: ts, a =>
    if t.address = some a then
      match t.stats with
      | CoverageStat.Line h =>
        { t with stats := CoverageStat.Line (h + 1) } :: ts
    else
      t :: bumpTrace ts a

/-- The linux statemachine Data struct (src/statemachine/linux.rs).  The
breakpoint map is modelled by its key set (the installed addresses); the
borrowed Config is carried as a field. -/
structure Data where
  wait : WaitStatus
  current : Int
  parent : Int
  breakpoints : List Nat
  traces : TraceMap
  config : Config
  error_message : Option String
  thread_count : Int
  force_disable_hit_count : Bool
deriving DecidableEq, Repr

/-- Data::new (src/statemachine/linux.rs lines 209-221). -/
def Data.new (traces : TraceMap) (config : Config) : Data :=
  { wait := WaitStatus.StillAlive
    current := 0
    parent := 0
    breakpoints := []
    traces := traces
    config := config
    error_message := none
    thread_count := 0
    force_disable_hit_count := config.count }

/-- Oracle outcomes for the OS calls made by Data::handle_ptrace_event. -/
structure PtraceEnv where
  get_event_data_ok : Bool
  continue_ok : Bool
  detach_ok : Bool
deriving DecidableEq, Repr

/-- Data::handle_ptrace_event (src/statemachine/linux.rs lines 223-257).
Returns the updated struct together with the nix Result; an error of the
question-mark operator is modelled as the error case, with the field
mutations made before the failing call kept, as in the Rust source. -/
def handle_ptrace_event (d : Data) (_child : Int) (sig : Signal) (event : Int)
    (env : PtraceEnv) : Data × Except Unit TestState :=
  if sig = Signal.SIGTRAP then
    if event = PTRACE_EVENT_CLONE then
      if env.get_event_data_ok then
        let d := { d with thread_count := d.thread_count + 1 }
        if env.continue_ok then (d, Except.ok TestState.wait_state)
        else (d, Except.error ())
      else
        ({ d with error_message := some "Error occurred upon test executable thread creation" },
          Except.ok TestState.Unrecoverable)
    else if event = PTRACE_EVENT_FORK ∨ event = PTRACE_EVENT_VFORK then
      if env.continue_ok then (d, Except.ok TestState.wait_state)
      else (d, Except.error ())
    else if event = PTRACE_EVENT_EXEC then
      if env.detach_ok then (d, Except.ok TestState.wait_state)
      else (d, Except.error ())
    else if event = PTRACE_EVENT_EXIT then
      let d := { d with thread_count := d.thread_count - 1 }
      if env.continue_ok then (d, Except.ok TestState.wait_state)
      else (d, Except.error ())
    else (d, Except.ok TestState.Unrecoverable)
  else
    ({ d with error_message := some "Unexpected ptrace event" }, Except.ok TestState.Unrecoverable)

/-- Oracle outcomes for the OS calls made by Data::collect_coverage_data:
the instruction-pointer read, the Breakpoint::process call and the
continue_exec fallback. -/
structure CovEnv where
  rip : Option Int
  processResult : Except Unit Bool
  continue_ok : Bool
deriving Repr

/-- The address looked up after a trap stop: the instruction pointer minus
one, cast to u64 as in `(rip - 1) as u64`. -/
def ripAddr (rip : Int) : Nat := ((rip - 1) % (2 : Int) ^ 64).toNat

/-- Result of the coverage-collection path, with ghost observations: whether
the multithreading warning was printed, whether continue_exec was invoked
directly by this function, and the refire flag passed to Breakpoint::process
when a known breakpoint was hit. -/
structure CovOut where
  data : Data
  warned : Bool
  continued : Bool
  enabledRefire : Option Bool
  result : Except Unit TestState
deriving Repr

/-- Data::collect_coverage_data (src/statemachine/linux.rs lines 259-293). -/
def collect_coverage_data (d : Data) (env : CovEnv) : CovOut :=
  match env.rip with
  | some ripRaw =>
    let rip : Nat := ripAddr ripRaw
    if rip ∈ d.breakpoints then
      let enable := d.config.count && decide (d.thread_count < 2)
      let warned := !enable && d.force_disable_hit_count
      let d := if warned then { d with force_disable_hit_count := false } else d
      match env.processResult with
      | Except.ok updated =>
        if updated then
          { data := { d with traces := bumpTrace d.traces rip }
            warned := warned
            continued := false
            enabledRefire := some enable
            result := Except.ok TestState.wait_state }
        else
          { data := d, warned := warned, continued := false
            enabledRefire := some enable
            result := Except.ok TestState.wait_state }
      | Except.error _ =>
        if env.continue_ok then
          { data := d, warned := warned, continued := true
            enabledRefire := some enable
            result := Except.ok TestState.wait_state }
        else
          { data := d, warned := warned, continued := true
            enabledRefire := some enable, result := Except.error () }
    else
      if env.continue_ok then
        { data := d, warned := false, continued := true
          enabledRefire := none, result := Except.ok TestState.wait_state }
      else
        { data := d, warned := false, continued := true
          enabledRefire := none, result := Except.error () }
  | none =>
    if env.continue_ok then
      { data := d, warned := false, continued := true
        enabledRefire := none, result := Except.ok TestState.wait_state }
    else
      { data := d, warned := false, continued := true
        enabledRefire := none, result := Except.error () }

/-- Data::handle_signaled (src/statemachine/linux.rs lines 296-307). -/
def handle_signaled (d : Data) (continue_ok : Bool) : Data × Except Unit TestState :=
  match d.wait with
  | WaitStatus.Signaled _child Signal.SIGTRAP true =>
    if continue_ok then (d, Except.ok TestState.wait_state)
    else (d, Except.error ())
  | _ =>
    ({ d with error_message := some "Unexpected stop" },
      Except.ok TestState.Unrecoverable)

/-- Oracle outcomes for the calls made from Data::stop. -/
structure StopEnv where
  ptrace : PtraceEnv
  cov : CovEnv
  sigstop_continue_ok : Bool
  signaled_continue_ok : Bool
deriving Repr

/-- Data::stop (src/statemachine/linux.rs lines 129-196), dispatching on the
stored wait status.  The continue_exec calls whose results the source
ignores (signal forwarding and the keep-parent-running call after a
non-root exit) have no observable effect in the model. -/
def stop (d : Data) (env : StopEnv) : Data × TestState :=
  match d.wait with
  | WaitStatus.PtraceEvent c s e =>
    match handle_ptrace_event d c s e env.ptrace with
    | (d, Except.ok st) => (d, st)
    | (d, Except.error _) =>
      ({ d with error_message := some "Error occurred when handling ptrace event" },
        TestState.Unrecoverable)
  | WaitStatus.Stopped c Signal.SIGTRAP =>
    let d := { d with current := c }
    let out := collect_coverage_data d env.cov
    match out.result with
    | Except.ok st => (out.data, st)
    | Except.error _ =>
      ({ out.data with error_message := some "Error when collecting coverage" },
        TestState.Unrecoverable)
  | WaitStatus.Stopped _child Signal.SIGSTOP =>
    if env.sigstop_continue_ok then (d, TestState.wait_state)
    else
      ({ d with error_message := some "Error processing SIGSTOP" },
        TestState.Unrecoverable)
  | WaitStatus.Stopped _ Signal.SIGSEGV =>
    ({ d with error_message := some "Error a segfault occured when executing test" },
      TestState.Unrecoverable)
  | WaitStatus.Stopped _c _s => (d, TestState.wait_state)
  | WaitStatus.Signaled _ _ _ =>
    match handle_signaled d env.signaled_continue_ok with
    | (d, Except.ok st) => (d, st)
    | (d, Except.error _) =>
      ({ d with error_message := some "Error attempting to handle tarpaulin being signaled" },
        TestState.Unrecoverable)
  | WaitStatus.Exited child ec =>
    if child = d.parent then (d, TestState.End ec)
    else (d, TestState.wait_state)
  | _ => (d, TestState.Unrecoverable)

/-- Outcome of one Breakpoint::new call during instrumentation, classified
as in the match of Data::init: success, Err(Sys(EIO)), the
UnsupportedOperation address clash, or any other error. -/
inductive InstallResult
  | ok
  | eio
  | unsupported
  | otherErr
deriving DecidableEq, Repr

/-- Oracle outcomes for the calls made by Data::init. -/
structure InitEnv where
  install : Nat → InstallResult
  trace_children_ok : Bool
  continue_ok : Bool

/-- Result of the instrumentation loop of Data::init, with a ghost flag
recording whether the no-pie remediation message was printed. -/
structure LoopOut where
  data : Data
  instrumented : Bool
  pieMsgPrinted : Bool

/-- The for-loop over all traces in Data::init (src/statemachine/linux.rs
lines 71-97): install a breakpoint at every trace address, ignore address
clashes, record an error message on other failures, and on EIO print the
no-pie remediation message, clear `instrumented` and break. -/
def installLoop (env : InitEnv) : List Trace → Data → LoopOut
  | [], d => { data := d, instrumented := true, pieMsgPrinted := false }
  | t :: ts, d =>
    match t.address with
    | some addr =>
      match env.install addr with
      | InstallResult.ok =>
        installLoop env ts { d with breakpoints := d.breakpoints ++ [addr] }
      | InstallResult.eio =>
        { data := d, instrumented := false, pieMsgPrinted := true }
      | InstallResult.unsupported => installLoop env ts d
      | InstallResult.otherErr =>
        installLoop env ts
          { d with error_message := some "Failed to instrument test executable" }
    | none => installLoop env ts d

/-- Result of Data::init. -/
structure InitOut where
  data : Data
  state : TestState
  pieMsgPrinted : Bool

/-- Data::init (src/statemachine/linux.rs lines 65-107): run the
instrumentation loop, then Abort when it was cut short by EIO, otherwise
continue the parent into the wait state (Unrecoverable when that continue
fails). -/
def init (d : Data) (env : InitEnv) : InitOut :=
  let out := installLoop env d.traces d
  { data := out.data
    state :=
      if !out.instrumented then TestState.Abort
      else if env.continue_ok then TestState.wait_state
      else TestState.Unrecoverable
    pieMsgPrinted := out.pieMsgPrinted }

/-- Flag set passed to a waitpid call. -/
structure WaitPidFlags where
  wnohang : Bool
  wall : Bool
deriving DecidableEq, Repr

/-- The flags passed to waitpid by Data::wait (src/statemachine/linux.rs
line 111): WNOHANG | __WALL. -/
def wait_wait_flag : WaitPidFlags := { wnohang := true, wall := true }

/-- The flags passed to waitpid by Data::start (src/statemachine/linux.rs
line 40): WNOHANG. -/
def start_wait_flag : WaitPidFlags := { wnohang := true, wall := false }

/-- Data::wait (src/statemachine/linux.rs lines 110-126); waitpid is an
oracle taking the flags the source passes to it. -/
def wait (d : Data) (waitpid : WaitPidFlags → Except Unit WaitStatus) :
    Data × Option TestState :=
  match waitpid wait_wait_flag with
  | Except.ok WaitStatus.StillAlive =>
    ({ d with wait := WaitStatus.StillAlive }, none)
  | Except.ok s => ({ d with wait := s }, some TestState.Stopped)
  | Except.error _ =>
    ({ d with error_message := some "An error occurred while waiting for response from test" },
      some TestState.Unrecoverable)

/-- Data::start (src/statemachine/linux.rs lines 39-62). -/
def start (d : Data) (waitpid : WaitPidFlags → Except Unit WaitStatus)
    (continue_ok : Bool) : Data × Option TestState :=
  match waitpid start_wait_flag with
  | Except.ok WaitStatus.StillAlive => (d, none)
  | Except.ok (WaitStatus.Stopped child Signal.SIGTRAP) =>
    ({ d with current := child, wait := WaitStatus.Stopped child Signal.SIGTRAP },
      some TestState.Initialise)
  | Except.ok _ =>
    if continue_ok then (d, none) else (d, some TestState.Unrecoverable)
  | Except.error _ => (d, some TestState.Unrecoverable)

/-- The terminal-state handling at the end of collect_coverage
(src/lib.rs lines 219-237): on Abort the process exits without returning a
TraceMap; otherwise the accumulated traces are returned together with
test_passed, which was set to (i == 0) when the final state is End(i) and
keeps its initial value false otherwise. -/
def collectResult (traces : TraceMap) (final : TestState) :
    Option (TraceMap × Bool) :=
  match final with
  | TestState.Abort => none
  | TestState.End i => some (traces, decide (i = 0))
  | _ => some (traces, false)

/-- Outcome of the fork call in get_test_coverage. -/
inductive ForkOutcome
  | parent (child : Int)
  | child
  | err
deriving DecidableEq, Repr

/-- Ghost observations of get_test_coverage: whether fork was called and
whether the child branch launched the tracee via execute_test. -/
structure RunEffects where
  forked : Bool
  launchedTracee : Bool
deriving DecidableEq, Repr

/-- get_test_coverage (src/lib.rs lines 177-209): an early None return when
the test path does not exist, otherwise fork and, in the parent, run
collect_coverage (its outcome supplied as an oracle). -/
def get_test_coverage (testExists : Bool) (forkOutcome : ForkOutcome)
    (collectRes : Except Unit (TraceMap × Bool)) :
    Option (TraceMap × Bool) × RunEffects :=
  if !testExists then (none, { forked := false, launchedTracee := false })
  else
    match forkOutcome with
    | ForkOutcome.parent _child =>
      match collectRes with
      | Except.ok t => (some t, { forked := true, launchedTracee := false })
      | Except.error _ => (none, { forked := true, launchedTracee := false })
    | ForkOutcome.child => (none, { forked := true, launchedTracee := true })
    | ForkOutcome.err => (none, { forked := true, launchedTracee := false })

/-- The argument vector built by execute_test (src/lib.rs lines 263-277):
the binary path, then --ignored when the ignored flag is set, then --quiet
when not verbose, then every varargs entry. -/
def execute_test_argv (exec_path : String) (ignored : Bool) (config : Config) :
    List String :=
  let argv := if ignored then [exec_path, "--ignored"] else [exec_path]
  let argv := if config.verbose then argv else argv ++ ["--quiet"]
  argv ++ config.varargs

/-- The argv order exactly as the spec words it: the binary path first, then
--ignored if and only if run_ignored, then --quiet if and only if not
verbose, then each varargs entry in sequence. -/
def spec_argv (exec_path : String) (config : Config) : List String :=
  [exec_path]
    ++ (if config.run_ignored then ["--ignored"] else [])
    ++ (if config.verbose then [] else ["--quiet"])
    ++ config.varargs

/-- One event dispatched by the Stopped state while the tracee runs: either
a ptrace lifecycle event (handled by handle_ptrace_event) or a SIGTRAP stop
(handled by collect_coverage_data), each with its oracle outcomes. -/
inductive MEvent
  | pt (child : Int) (sig : Signal) (event : Int) (env : PtraceEnv)
  | trap (env : CovEnv)

/-- Run of the event-handling core over a sequence of events, returning the
final Data and the number of times the multithreading warning was printed. -/
def runM : Data → List MEvent → Data × Nat
  | d, [] => (d, 0)
  | d, MEvent.pt c s e env :: es => runM (handle_ptrace_event d c s e env).1 es
  | d, MEvent.trap env :: es =>
    let out := collect_coverage_data d env
    let r := runM out.data es
    (r.1, (if out.warned then 1 else 0) + r.2)

/-- Contribution of one event to the thread count on the increment side: one
for a clone event whose get_event_data call succeeds. -/
def cloneIncr : MEvent → Nat
  | MEvent.pt _ s e env =>
    if s = Signal.SIGTRAP ∧ e = PTRACE_EVENT_CLONE ∧ env.get_event_data_ok = true
    then 1 else 0
  | _ => 0

/-- Contribution of one event on the decrement side: one for an exit event. -/
def exitIncr : MEvent → Nat
  | MEvent.pt _ s e _ =>
    if s = Signal.SIGTRAP ∧ e = PTRACE_EVENT_EXIT then 1 else 0
  | _ => 0

/-- Number of counted clone events in a sequence. -/
def clones (es : List MEvent) : Nat := (es.map cloneIncr).sum

/-- Number of exit events in a sequence. -/
def exits (es : List MEvent) : Nat := (es.map exitIncr).sum

/-- Whether a trap event stops at a known breakpoint address of the given
engine state. -/
def hitAt (d : Data) (env : CovEnv) : Bool :=
  match env.rip with
  | some r => decide (ripAddr r ∈ d.breakpoints)
  | none => false

/-- Whether a run contains a breakpoint hit processed while at least two
cloned threads are live, i.e. the situation that downgrades hit counting. -/
def hasMultithreadHit : Data → List MEvent → Bool
  | _, [] => false
  | d, MEvent.pt c s e env :: es =>
    hasMultithreadHit (handle_ptrace_event d c s e env).1 es
  | d, MEvent.trap env :: es =>
    (hitAt d env && decide (2 ≤ d.thread_count))
      || hasMultithreadHit (collect_coverage_data d env).data es

lemma hpe_frame (d : Data) (c : Int) (s : Signal) (e : Int) (env : PtraceEnv) :
    (handle_ptrace_event d c s e env).1.config = d.config
      ∧ (handle_ptrace_event d c s e env).1.breakpoints = d.breakpoints
      ∧ (handle_ptrace_event d c s e env).1.traces = d.traces
      ∧ (handle_ptrace_event d c s e env).1.force_disable_hit_count
          = d.force_disable_hit_count
      ∧ (handle_ptrace_event d c s e env).1.parent = d.parent := by
  unfold handle_ptrace_event
  split_ifs <;> simp

lemma hpe_thread_count (d : Data) (c : Int) (s : Signal) (e : Int)
    (env : PtraceEnv) :
    (handle_ptrace_event d c s e env).1.thread_count
      = d.thread_count + (cloneIncr (MEvent.pt c s e env) : Int)
          - (exitIncr (MEvent.pt c s e env) : Int) := by
  unfold handle_ptrace_event cloneIncr exitIncr
  unfold PTRACE_EVENT_FORK PTRACE_EVENT_VFORK PTRACE_EVENT_CLONE
    PTRACE_EVENT_EXEC PTRACE_EVENT_EXIT
  split_ifs <;> simp_all <;> omega

lemma ccd_frame (d : Data) (env : CovEnv) :
    (collect_coverage_data d env).data.config = d.config
      ∧ (collect_coverage_data d env).data.breakpoints = d.breakpoints
      ∧ (collect_coverage_data d env).data.thread_count = d.thread_count
      ∧ (collect_coverage_data d env).data.parent = d.parent := by
  unfold collect_coverage_data
  rcases env with ⟨rip, pr, cont⟩
  rcases rip with _ | r <;> rcases pr with u | u <;>
    simp only [] <;> split_ifs <;> simp

lemma runM_thread_count (es : List MEvent) (d : Data) :
    ((runM d es).1).thread_count
      = d.thread_count + (clones es : Int) - (exits es : Int) := by
  induction es generalizing d with
  | nil => simp [runM, clones, exits]
  | cons ev es ih =>
    cases ev with
    | pt c s e env =>
      show ((runM (handle_ptrace_event d c s e env).1 es).1).thread_count = _
      rw [ih]
      rw [hpe_thread_count]
      simp only [clones, exits, List.map_cons, List.sum_cons]
      push_cast
      ring
    | trap env =>
      show ((runM (collect_coverage_data d env).data es).1).thread_count = _
      rw [ih]
      rw [(ccd_frame d env).2.2.1]
      simp only [clones, exits, List.map_cons, List.sum_cons, cloneIncr, exitIncr]
      push_cast
      ring

/-- A sample configuration for concrete evaluations. -/
def cfg0 : Config :=
  { verbose := false, count := false, forward_signals := false
    run_ignored := false, varargs := [] }

/-- A ptrace oracle with every call succeeding. -/
def ptEnvOk : PtraceEnv :=
  { get_event_data_ok := true, continue_ok := true, detach_ok := true }

/-- A successfully reported clone event for thread 7. -/
def cloneEv : MEvent := MEvent.pt 7 Signal.SIGTRAP PTRACE_EVENT_CLONE ptEnvOk

/-- An exit event for thread 7. -/
def exitEv : MEvent := MEvent.pt 7 Signal.SIGTRAP PTRACE_EVENT_EXIT ptEnvOk

/-- Claim C1, counterexample: the claim quantifies over every sequence of
ptrace events processed by the state machine, but the exit handler
decrements thread_count unconditionally, so the sequence consisting of a
single PTRACE_EVENT_EXIT (no prior clone) drives the tracked thread_count
of a freshly constructed engine to -1, below zero. -/
theorem claim_C1_counterexample :
    ((runM (Data.new [] cfg0) [exitEv]).1).thread_count < 0 := by
  decide

/-- Claim C1, amended: if along every prefix of the event sequence the exit
events never outnumber the clone events that were successfully recorded
(a clone observed before the corresponding exit), then the engine's tracked
thread_count stays nonnegative at every point of the run. -/
theorem claim_C1_amended (tm : TraceMap) (cfg : Config) (es : List MEvent)
    (h : ∀ n ≤ es.length, exits (List.take n es) ≤ clones (List.take n es)) :
    ∀ n, 0 ≤ ((runM (Data.new tm cfg) (List.take n es)).1).thread_count := by
  intro n
  rw [runM_thread_count]
  show (0 : Int) ≤ 0 + clones (List.take n es) - exits (List.take n es)
  rcases le_total n es.length with hn | hn
  · have := h n hn
    omega
  · rw [List.take_of_length_le hn]
    have := h es.length le_rfl
    rw [List.take_of_length_le le_rfl] at this
    omega

/-- Claim C1, witness for the amended theorem on the concrete run with one
clone followed by one exit. -/
theorem claim_C1_witness :
    (∀ n ≤ [cloneEv, exitEv].length,
        exits (List.take n [cloneEv, exitEv]) ≤ clones (List.take n [cloneEv, exitEv]))
      ∧ 0 ≤ ((runM (Data.new [] cfg0) (List.take 2 [cloneEv, exitEv])).1).thread_count :=
  ⟨by decide, claim_C1_amended [] cfg0 [cloneEv, exitEv] (by decide) 2⟩

/-- Claim C3: for every configuration the tracee argument vector built by
execute_test is exactly the binary path, then --ignored if and only if
run_ignored, then --quiet if and only if not verbose, then every varargs
entry in sequence. -/
theorem claim_C3 (exec_path : String) (config : Config) :
    execute_test_argv exec_path config.run_ignored config
      = spec_argv exec_path config := by
  rcases config with ⟨v, c, f, ri, va⟩
  cases v <;> cases ri <;> rfl

/-- Claim C10: when the path argument does not name an existing file,
get_test_coverage returns None without forking and without launching a
tracee, whatever the fork and coverage-collection outcomes would be. -/
theorem claim_C10 (forkOutcome : ForkOutcome)
    (collectRes : Except Unit (TraceMap × Bool)) :
    get_test_coverage false forkOutcome collectRes
      = (none, { forked := false, launchedTracee := false }) := rfl

/-- Claim C9, counterexample: the claim says the Wait-state wait call runs
in blocking mode, but the flags Data::wait passes to waitpid include
WNOHANG, so the call is non-blocking. -/
theorem claim_C9_counterexample : ¬ wait_wait_flag.wnohang = false := by
  decide

/-- Claim C9, amended: the non-blocking WNOHANG option is passed to waitpid
in both Start and Wait: Data::wait calls waitpid with WNOHANG | __WALL and
polls, staying in Wait (returning no transition) when the call reports
StillAlive and moving to Stopped on any other status. -/
theorem claim_C9_amended :
    wait_wait_flag = { wnohang := true, wall := true }
      ∧ start_wait_flag = { wnohang := true, wall := false }
      ∧ (∀ (d : Data) (f : WaitPidFlags → Except Unit WaitStatus),
          f wait_wait_flag = Except.ok WaitStatus.StillAlive →
          wait d f = ({ d with wait := WaitStatus.StillAlive }, none))
      ∧ (∀ (d : Data) (f : WaitPidFlags → Except Unit WaitStatus)
            (s : WaitStatus),
          f wait_wait_flag = Except.ok s → s ≠ WaitStatus.StillAlive →
          wait d f = ({ d with wait := s }, some TestState.Stopped)) := by
  refine ⟨rfl, rfl, ?_, ?_⟩
  · intro d f h
    unfold wait
    rw [h]
  · intro d f s h hs
    unfold wait
    rw [h]
    cases s <;> first | exact absurd rfl hs | rfl

/-- Claim C9, witness: the amended behavior evaluated on concrete oracles,
one reporting StillAlive and one reporting a SIGSTOP stop. -/
theorem claim_C9_witness :
    wait (Data.new [] cfg0) (fun _ => Except.ok WaitStatus.StillAlive)
        = ({ Data.new [] cfg0 with wait := WaitStatus.StillAlive }, none)
      ∧ wait (Data.new [] cfg0)
          (fun _ => Except.ok (WaitStatus.Stopped 3 Signal.SIGSTOP))
        = ({ Data.new [] cfg0 with wait := WaitStatus.Stopped 3 Signal.SIGSTOP },
            some TestState.Stopped) :=
  ⟨claim_C9_amended.2.2.1 (Data.new [] cfg0) _ rfl,
    claim_C9_amended.2.2.2 (Data.new [] cfg0) _ (WaitStatus.Stopped 3 Signal.SIGSTOP)
      rfl (by decide)⟩

/-- Claim C6: whenever the stored wait status is a SIGSEGV stop, Data::stop
records the segfault diagnostic and moves to Unrecoverable, which is a
terminal state, so the run never continues past a tracee segfault. -/
theorem claim_C6 (d : Data) (env : StopEnv) (pid : Int)
    (h : d.wait = WaitStatus.Stopped pid Signal.SIGSEGV) :
    stop d env
        = ({ d with error_message := some "Error a segfault occured when executing test" },
            TestState.Unrecoverable)
      ∧ TestState.is_finished TestState.Unrecoverable = true := by
  constructor
  · unfold stop
    rw [h]
  · rfl

/-- Claim C6, witness: the segfault transition evaluated on a concrete
engine state. -/
theorem claim_C6_witness :
    stop { Data.new [] cfg0 with wait := WaitStatus.Stopped 3 Signal.SIGSEGV }
        { ptrace := ptEnvOk
          cov := { rip := none, processResult := Except.ok false, continue_ok := true }
          sigstop_continue_ok := true, signaled_continue_ok := true }
        = ({ Data.new [] cfg0 with
              wait := WaitStatus.Stopped 3 Signal.SIGSEGV
              error_message := some "Error a segfault occured when executing test" },
            TestState.Unrecoverable)
      ∧ TestState.is_finished TestState.Unrecoverable = true :=
  claim_C6 _ _ 3 rfl

lemma hpe_no_end (d : Data) (c : Int) (s : Signal) (e : Int) (env : PtraceEnv)
    (x : Int) :
    (handle_ptrace_event d c s e env).2 ≠ Except.ok (TestState.End x) := by
  unfold handle_ptrace_event
  split_ifs <;> simp [TestState.wait_state]

lemma ccd_no_end (d : Data) (env : CovEnv) (x : Int) :
    (collect_coverage_data d env).result ≠ Except.ok (TestState.End x) := by
  unfold collect_coverage_data
  rcases env with ⟨rip, pr, cont⟩
  rcases rip with _ | r <;> rcases pr with u | u <;>
    simp only [] <;> split_ifs <;> simp [TestState.wait_state]

lemma hs_no_end (d : Data) (continue_ok : Bool) (x : Int) :
    (handle_signaled d continue_ok).2 ≠ Except.ok (TestState.End x) := by
  unfold handle_signaled
  split
  · split_ifs <;> simp [TestState.wait_state]
  · simp

/-- Claim C2: for every run that returns from the state-machine loop, the
test_passed boolean is true exactly when the final state is End(0); and the
only way Data::stop produces End(e) is an Exited status of the root pid
with exit code e. -/
theorem claim_C2 :
    (∀ (s : TestState) (tm : TraceMap) (r : TraceMap × Bool),
        TestState.is_finished s = true → collectResult tm s = some r →
        (r.2 = true ↔ s = TestState.End 0))
      ∧ (∀ (d : Data) (env : StopEnv) (e : Int),
        (stop d env).2 = TestState.End e →
        d.wait = WaitStatus.Exited d.parent e) := by
  constructor
  · intro s tm r hfin hres
    cases s with
    | Start => cases hfin
    | Initialise => cases hfin
    | Waiting => cases hfin
    | Stopped => cases hfin
    | End i =>
      simp only [collectResult, Option.some.injEq] at hres
      subst hres
      simp
    | Unrecoverable =>
      simp only [collectResult, Option.some.injEq] at hres
      subst hres
      simp
    | Abort =>
      simp only [collectResult] at hres
      cases hres
  · intro d env e h
    obtain ⟨w, cur, par, bps, tr, cfg, em, tc, fd⟩ := d
    unfold stop at h
    cases w with
    | StillAlive => simp at h
    | Continued p => simp at h
    | Stopped c sig =>
      cases sig with
      | SIGTRAP =>
        dsimp only at h
        split at h
        next st heq =>
          dsimp only at h
          subst h
          exact absurd heq (ccd_no_end _ _ e)
        next u heq => simp at h
      | SIGSTOP =>
        dsimp only at h
        split_ifs at h
        simp [TestState.wait_state] at h
      | SIGSEGV => simp at h
      | other n => simp [TestState.wait_state] at h
    | PtraceEvent c sig ev =>
      dsimp only at h
      split at h
      next d2 st heq =>
        dsimp only at h
        subst h
        exact absurd heq (by intro hbad; exact hpe_no_end _ c sig ev env.ptrace e (by rw [hbad]))
      next d2 u heq => simp at h
    | Signaled c sig cd =>
      dsimp only at h
      split at h
      next d2 st heq =>
        dsimp only at h
        subst h
        exact absurd heq (by intro hbad; exact hs_no_end _ env.signaled_continue_ok e (by rw [hbad]))
      next d2 u heq => simp at h
    | Exited child ec =>
      dsimp only at h
      split_ifs at h with hc
      · dsimp only at h
        injection h with h2
        show WaitStatus.Exited child ec = WaitStatus.Exited par e
        rw [hc, h2]
      · simp [TestState.wait_state] at h

/-- Claim C2, witness: the iff evaluated at the terminal state End 0 with a
successful exit, and the root-pid part evaluated on a concrete stop of the
root (parent pid 0) exiting with code 0. -/
theorem claim_C2_witness :
    ((([], true) : TraceMap × Bool).2 = true ↔ TestState.End 0 = TestState.End 0)
      ∧ ({ Data.new [] cfg0 with wait := WaitStatus.Exited 0 0 }.wait
          = WaitStatus.Exited
              { Data.new [] cfg0 with wait := WaitStatus.Exited 0 0 }.parent 0) :=
  ⟨claim_C2.1 (TestState.End 0) [] ([], true) rfl rfl,
    claim_C2.2 { Data.new [] cfg0 with wait := WaitStatus.Exited 0 0 }
      { ptrace := ptEnvOk
        cov := { rip := none, processResult := Except.ok false, continue_ok := true }
        sigstop_continue_ok := true, signaled_continue_ok := true }
      0 rfl⟩

lemma get_trace_bump (tm : TraceMap) (a : Nat) :
    get_trace? (bumpTrace tm a) a
      = Option.map (fun t => { t with stats := CoverageStat.Line (traceHits t + 1) })
          (get_trace? tm a) := by
  induction tm with
  | nil => rfl
  | cons t ts ih =>
    obtain ⟨loc, addr, ⟨hh⟩⟩ := t
    by_cases hc : addr = some a
    · subst hc
      simp [bumpTrace, get_trace?, traceHits, List.find?]
    · simp only [bumpTrace, if_neg hc]
      simp only [get_trace?, List.find?] at ih ⊢
      simp [hc, ih]

/-- Claim C4: on a Stopped-on-trap transition the engine reads the stopped
thread instruction pointer and decrements it by one; when the resulting
address is a known breakpoint and Breakpoint::process reports a fresh hit,
exactly the matching trace has its Line hit count incremented by one; when
the address is not a known breakpoint the tracee is continued and the
traces are unchanged. -/
theorem claim_C4 (d : Data) (env : CovEnv) (r : Int) (h : env.rip = some r) :
    (ripAddr r ∈ d.breakpoints → env.processResult = Except.ok true →
        (collect_coverage_data d env).data.traces = bumpTrace d.traces (ripAddr r))
      ∧ (ripAddr r ∉ d.breakpoints →
        (collect_coverage_data d env).data.traces = d.traces
          ∧ (collect_coverage_data d env).continued = true)
      ∧ ∀ (tm : TraceMap),
        get_trace? (bumpTrace tm (ripAddr r)) (ripAddr r)
          = Option.map
              (fun t => { t with stats := CoverageStat.Line (traceHits t + 1) })
              (get_trace? tm (ripAddr r)) := by
  rcases env with ⟨rip, pr, cont⟩
  cases h
  refine ⟨?_, ?_, fun tm => get_trace_bump tm (ripAddr r)⟩
  · intro hm hp
    cases hp
    simp only [collect_coverage_data, hm]
    split_ifs <;> rfl
  · intro hm
    cases cont <;> simp [collect_coverage_data, hm]

/-- A sample trace mapped to address 100 with zero hits. -/
def trace100 : Trace :=
  { location := { file := "f.rs", line := 10 }
    address := some 100
    stats := CoverageStat.Line 0 }

/-- A sample engine state with one installed breakpoint at address 100. -/
def dBp : Data := { Data.new [trace100] cfg0 with breakpoints := [100] }

/-- Claim C4, witness: a concrete hit at the known breakpoint 100 (trap at
instruction pointer 101) bumps the matching trace, and a trap at the
unknown address 999 continues the tracee and leaves every trace unchanged. -/
theorem claim_C4_witness :
    (collect_coverage_data dBp
          { rip := some 101, processResult := Except.ok true, continue_ok := true }).data.traces
        = bumpTrace dBp.traces (ripAddr 101)
      ∧ ((collect_coverage_data dBp
          { rip := some 1000, processResult := Except.ok true, continue_ok := true }).data.traces
            = dBp.traces
          ∧ (collect_coverage_data dBp
              { rip := some 1000, processResult := Except.ok true, continue_ok := true }).continued
            = true)
      ∧ get_trace? (bumpTrace [trace100] (ripAddr 101)) (ripAddr 101)
          = Option.map
              (fun t => { t with stats := CoverageStat.Line (traceHits t + 1) })
              (get_trace? [trace100] (ripAddr 101)) :=
  ⟨(claim_C4 dBp
      { rip := some 101, processResult := Except.ok true, continue_ok := true }
      101 rfl).1 (by decide) rfl,
    (claim_C4 dBp
      { rip := some 1000, processResult := Except.ok true, continue_ok := true }
      1000 rfl).2.1 (by decide),
    (claim_C4 dBp
      { rip := some 101, processResult := Except.ok true, continue_ok := true }
      101 rfl).2.2 [trace100]⟩

lemma installLoop_eio (env : InitEnv) (t : Trace) (a : Nat)
    (ha : t.address = some a) (he : env.install a = InstallResult.eio) :
    ∀ (ts : List Trace) (d : Data), t ∈ ts →
      (installLoop env ts d).instrumented = false
        ∧ (installLoop env ts d).pieMsgPrinted = true := by
  intro ts
  induction ts with
  | nil => intro d hmem; cases hmem
  | cons t2 ts ih =>
    intro d hmem
    rcases List.mem_cons.mp hmem with heq | hmem2
    · subst heq
      obtain ⟨loc, taddr, tst⟩ := t
      obtain rfl : taddr = some a := ha
      simp [installLoop, he]
    · obtain ⟨loc2, addr2, st2⟩ := t2
      cases addr2 with
      | none => exact ih d hmem2
      | some addr =>
        simp only [installLoop]
        cases h3 : env.install addr <;> simp only [h3]
        all_goals first
          | exact ih _ hmem2
          | exact ⟨rfl, trivial⟩
          | simp

lemma installLoop_traces (env : InitEnv) : ∀ (ts : List Trace) (d : Data),
    (installLoop env ts d).data.traces = d.traces := by
  intro ts
  induction ts with
  | nil => intro d; rfl
  | cons t2 ts ih =>
    intro d
    obtain ⟨loc2, addr2, st2⟩ := t2
    cases addr2 with
    | none => exact ih d
    | some addr =>
      simp only [installLoop]
      cases h3 : env.install addr <;> simp only [h3]
      all_goals first | rfl | exact ih _

lemma installLoop_breakpoints (env : InitEnv) : ∀ (ts : List Trace) (d : Data)
    (a : Nat), a ∈ (installLoop env ts d).data.breakpoints →
    a ∈ d.breakpoints ∨ ∃ t, t ∈ ts ∧ t.address = some a := by
  intro ts
  induction ts with
  | nil => intro d a h; exact Or.inl h
  | cons t2 ts ih =>
    intro d a h
    obtain ⟨loc2, addr2, st2⟩ := t2
    cases addr2 with
    | none =>
      rcases ih d a h with h1 | ⟨t, ht, ha⟩
      · exact Or.inl h1
      · exact Or.inr ⟨t, List.mem_cons_of_mem _ ht, ha⟩
    | some addr =>
      simp only [installLoop] at h
      cases h3 : env.install addr <;> rw [h3] at h
      · rcases ih _ a h with h1 | ⟨t, ht, ha⟩
        · rcases List.mem_append.mp h1 with h2 | h2
          · exact Or.inl h2
          · have : a = addr := List.mem_singleton.mp h2
            subst this
            exact Or.inr ⟨⟨loc2, some a, st2⟩, List.mem_cons_self _ _, rfl⟩
        · exact Or.inr ⟨t, List.mem_cons_of_mem _ ht, ha⟩
      · exact Or.inl h
      · rcases ih _ a h with h1 | ⟨t, ht, ha⟩
        · exact Or.inl h1
        · exact Or.inr ⟨t, List.mem_cons_of_mem _ ht, ha⟩
      · rcases ih _ a h with h1 | ⟨t, ht, ha⟩
        · exact Or.inl h1
        · exact Or.inr ⟨t, List.mem_cons_of_mem _ ht, ha⟩

lemma init_data (d : Data) (env : InitEnv) :
    (init d env).data = (installLoop env d.traces d).data := rfl

/-- Claim C7: when some trace address is rejected with EIO by the
breakpoint install during Initialise, the engine prints the no-pie
remediation message, the state machine terminates in Abort, and
collect_coverage reports no TraceMap for the run. -/
theorem claim_C7 (d : Data) (env : InitEnv) (t : Trace) (a : Nat)
    (hmem : t ∈ d.traces) (ha : t.address = some a)
    (he : env.install a = InstallResult.eio) :
    (init d env).state = TestState.Abort
      ∧ (init d env).pieMsgPrinted = true
      ∧ collectResult (init d env).data.traces TestState.Abort = none := by
  have h := installLoop_eio env t a ha he d.traces d hmem
  refine ⟨?_, h.2, rfl⟩
  show (if !(installLoop env d.traces d).instrumented then TestState.Abort
      else if env.continue_ok then TestState.wait_state
      else TestState.Unrecoverable) = TestState.Abort
  rw [h.1]
  rfl

/-- An instrumentation oracle rejecting every address with EIO. -/
def ienvEio : InitEnv :=
  { install := fun _ => InstallResult.eio
    trace_children_ok := true, continue_ok := true }

/-- An instrumentation oracle accepting every address. -/
def ienvOk : InitEnv :=
  { install := fun _ => InstallResult.ok
    trace_children_ok := true, continue_ok := true }

/-- Claim C7, witness: with a concrete trace at address 100 and an install
oracle answering EIO, Initialise aborts, prints the message and no
TraceMap is reported. -/
theorem claim_C7_witness :
    (init (Data.new [trace100] cfg0) ienvEio).state = TestState.Abort
      ∧ (init (Data.new [trace100] cfg0) ienvEio).pieMsgPrinted = true
      ∧ collectResult (init (Data.new [trace100] cfg0) ienvEio).data.traces
          TestState.Abort = none :=
  claim_C7 (Data.new [trace100] cfg0) ienvEio trace100 100 (by decide) rfl rfl

lemma bump_none_mem (tm : TraceMap) (a : Nat) (t : Trace)
    (ht : t.address = none) : t ∈ bumpTrace tm a ↔ t ∈ tm := by
  induction tm with
  | nil => exact Iff.rfl
  | cons t2 ts ih =>
    obtain ⟨loc2, addr2, ⟨h2⟩⟩ := t2
    by_cases hc : addr2 = some a
    · subst hc
      have hne1 : t ≠ ⟨loc2, some a, CoverageStat.Line (h2 + 1)⟩ := by
        intro h; rw [h] at ht; cases ht
      have hne2 : t ≠ ⟨loc2, some a, CoverageStat.Line h2⟩ := by
        intro h; rw [h] at ht; cases ht
      simp [bumpTrace, List.mem_cons, hne1, hne2]
    · simp [bumpTrace, hc, List.mem_cons, ih]

lemma ccd_traces_cases (d : Data) (env : CovEnv) :
    (collect_coverage_data d env).data.traces = d.traces
      ∨ ∃ a, (collect_coverage_data d env).data.traces = bumpTrace d.traces a := by
  rcases env with ⟨rip, pr, cont⟩
  rcases rip with _ | r
  · left
    cases cont <;> simp [collect_coverage_data]
  · by_cases hm : ripAddr r ∈ d.breakpoints
    · rcases pr with u | u
      · left
        cases cont <;> simp only [collect_coverage_data, hm] <;>
          simp <;> split_ifs <;> rfl
      · cases u
        · left
          simp only [collect_coverage_data, hm]
          simp
          split_ifs <;> rfl
        · right
          refine ⟨ripAddr r, ?_⟩
          simp only [collect_coverage_data, hm]
          simp
          split_ifs <;> rfl
    · left
      cases cont <;> simp [collect_coverage_data, hm]

lemma runM_none_mem (es : List MEvent) : ∀ (d : Data) (t : Trace),
    t.address = none → t ∈ (runM d es).1.traces → t ∈ d.traces := by
  induction es with
  | nil => intro d t ht h; exact h
  | cons ev es ih =>
    intro d t ht h
    cases ev with
    | pt c s e env =>
      have h2 := ih _ t ht h
      rwa [(hpe_frame d c s e env).2.2.1] at h2
    | trap env =>
      have h2 := ih _ t ht h
      rcases ccd_traces_cases d env with hc | ⟨a, hc⟩
      · rwa [hc] at h2
      · rw [hc] at h2
        exact (bump_none_mem d.traces a t ht).mp h2

/-- Claim C8: during Initialise a breakpoint is only installed at an
address carried by some trace, so no breakpoint belongs to a trace with no
address; and across any run the hit-increment path only touches traces
looked up by breakpoint address, so every trace with address None still has
zero hits on completion if it started with zero. -/
theorem claim_C8 (d : Data) (ienv : InitEnv) (es : List MEvent) :
    (∀ a, a ∈ (init d ienv).data.breakpoints →
        a ∈ d.breakpoints ∨ ∃ t, t ∈ d.traces ∧ t.address = some a)
      ∧ ((∀ t, t ∈ d.traces → t.address = none → t.stats = CoverageStat.Line 0) →
        ∀ t, t ∈ (runM (init d ienv).data es).1.traces → t.address = none →
          t.stats = CoverageStat.Line 0) := by
  constructor
  · intro a hmem
    rw [init_data] at hmem
    exact installLoop_breakpoints ienv d.traces d a hmem
  · intro h0 t hmem ht
    have h1 : t ∈ (init d ienv).data.traces := runM_none_mem es _ t ht hmem
    rw [init_data, installLoop_traces] at h1
    exact h0 t h1 ht

/-- A sample coverable trace that resolved to no address. -/
def traceNone : Trace :=
  { location := { file := "f.rs", line := 11 }
    address := none
    stats := CoverageStat.Line 0 }

/-- Claim C8, witness: on a concrete run that installs the breakpoint at
100 and bumps it once, the installed addresses all come from traces and the
address-less trace still has zero hits. -/
theorem claim_C8_witness :
    ((100 : Nat) ∈ (Data.new [trace100, traceNone] cfg0).breakpoints
        ∨ ∃ t, t ∈ (Data.new [trace100, traceNone] cfg0).traces
            ∧ t.address = some 100)
      ∧ traceNone.stats = CoverageStat.Line 0 :=
  ⟨(claim_C8 (Data.new [trace100, traceNone] cfg0) ienvOk
      [MEvent.trap { rip := some 101, processResult := Except.ok true, continue_ok := true }]).1
      100 (by decide),
    (claim_C8 (Data.new [trace100, traceNone] cfg0) ienvOk
      [MEvent.trap { rip := some 101, processResult := Except.ok true, continue_ok := true }]).2
      (by decide) traceNone (by decide) rfl⟩

lemma ccd_enable (d : Data) (env : CovEnv) (b : Bool)
    (h : (collect_coverage_data d env).enabledRefire = some b) :
    b = (d.config.count && decide (d.thread_count < 2)) := by
  rcases env with ⟨rip, pr, cont⟩
  rcases rip with _ | r
  · cases cont <;> simp [collect_coverage_data] at h
  · by_cases hm : ripAddr r ∈ d.breakpoints
    · rcases pr with u | u
      · cases cont <;> simp [collect_coverage_data, hm] at h <;> exact h.symm
      · cases u <;> simp [collect_coverage_data, hm] at h <;> exact h.symm
    · cases cont <;> simp [collect_coverage_data, hm] at h

lemma ccd_warned_iff (d : Data) (env : CovEnv) :
    (collect_coverage_data d env).warned
      = (hitAt d env && !(d.config.count && decide (d.thread_count < 2))
          && d.force_disable_hit_count) := by
  rcases env with ⟨rip, pr, cont⟩
  rcases rip with _ | r
  · cases cont <;> simp [collect_coverage_data, hitAt]
  · by_cases hm : ripAddr r ∈ d.breakpoints
    · have hh : hitAt d { rip := some r, processResult := pr, continue_ok := cont } = true := by
        simp [hitAt, hm]
      rcases pr with u | u
      · cases cont <;> simp [collect_coverage_data, hm, hh]
      · cases u <;> simp [collect_coverage_data, hm, hh]
    · have hh : hitAt d { rip := some r, processResult := pr, continue_ok := cont } = false := by
        simp [hitAt, hm]
      cases cont <;> simp [collect_coverage_data, hm, hh]

lemma ccd_flag_after (d : Data) (env : CovEnv) :
    (collect_coverage_data d env).data.force_disable_hit_count
      = (!(collect_coverage_data d env).warned && d.force_disable_hit_count) := by
  rcases env with ⟨rip, pr, cont⟩
  rcases rip with _ | r
  · cases cont <;> simp [collect_coverage_data]
  · by_cases hm : ripAddr r ∈ d.breakpoints
    · rcases pr with u | u
      · cases cont <;>
          cases henable : (d.config.count && decide (d.thread_count < 2)) <;>
          cases hflag : d.force_disable_hit_count <;>
          simp [collect_coverage_data, hm, henable, hflag]
      · cases u <;>
          cases henable : (d.config.count && decide (d.thread_count < 2)) <;>
          cases hflag : d.force_disable_hit_count <;>
          simp [collect_coverage_data, hm, henable, hflag]
    · cases cont <;> simp [collect_coverage_data, hm]

lemma runM_warn_zero (es : List MEvent) : ∀ d : Data,
    d.force_disable_hit_count = false → (runM d es).2 = 0 := by
  induction es with
  | nil => intro d _; rfl
  | cons ev es ih =>
    intro d h
    cases ev with
    | pt c s e env =>
      show (runM (handle_ptrace_event d c s e env).1 es).2 = 0
      exact ih _ (by rw [(hpe_frame d c s e env).2.2.2.1, h])
    | trap env =>
      show (if (collect_coverage_data d env).warned then 1 else 0)
          + (runM (collect_coverage_data d env).data es).2 = 0
      have hw : (collect_coverage_data d env).warned = false := by
        rw [ccd_warned_iff, h]
        simp
      have hf : (collect_coverage_data d env).data.force_disable_hit_count = false := by
        rw [ccd_flag_after, h]
        simp
      rw [hw, ih _ hf]
      simp

lemma runM_warn_le_one (es : List MEvent) : ∀ d : Data, (runM d es).2 ≤ 1 := by
  induction es with
  | nil => intro d; simp [runM]
  | cons ev es ih =>
    intro d
    cases ev with
    | pt c s e env =>
      show (runM (handle_ptrace_event d c s e env).1 es).2 ≤ 1
      exact ih _
    | trap env =>
      show (if (collect_coverage_data d env).warned then 1 else 0)
          + (runM (collect_coverage_data d env).data es).2 ≤ 1
      by_cases hw : (collect_coverage_data d env).warned = true
      · have hf : (collect_coverage_data d env).data.force_disable_hit_count = false := by
          rw [ccd_flag_after, hw]
          simp
        rw [hw, runM_warn_zero es _ hf]
        simp
      · have hw2 : (collect_coverage_data d env).warned = false := by
          simpa using hw
        rw [hw2]
        simpa using ih _

lemma runM_warn_one (es : List MEvent) : ∀ d : Data,
    d.config.count = true → d.force_disable_hit_count = true →
    hasMultithreadHit d es = true → (runM d es).2 = 1 := by
  induction es with
  | nil => intro d _ _ h3; cases h3
  | cons ev es ih =>
    intro d h1 h2 h3
    cases ev with
    | pt c s e env =>
      show (runM (handle_ptrace_event d c s e env).1 es).2 = 1
      have hfr := hpe_frame d c s e env
      exact ih _ (by rw [hfr.1]; exact h1) (by rw [hfr.2.2.2.1]; exact h2) h3
    | trap env =>
      show (if (collect_coverage_data d env).warned then 1 else 0)
          + (runM (collect_coverage_data d env).data es).2 = 1
      by_cases hhit : (hitAt d env && decide (2 ≤ d.thread_count)) = true
      · rcases Bool.and_eq_true_iff.mp hhit with ⟨hha, hhb⟩
        have htc : ¬ d.thread_count < 2 := by
          have := of_decide_eq_true hhb
          omega
        have hw : (collect_coverage_data d env).warned = true := by
          rw [ccd_warned_iff]
          simp [hha, h1, h2, htc]
        have hf : (collect_coverage_data d env).data.force_disable_hit_count = false := by
          rw [ccd_flag_after, hw]
          simp
        rw [hw, runM_warn_zero es _ hf]
        simp
      · have hw : (collect_coverage_data d env).warned = false := by
          rw [ccd_warned_iff]
          by_cases hha : hitAt d env = true
          · have htc2 : decide (2 ≤ d.thread_count) = false := by
              rcases hb : decide (2 ≤ d.thread_count)
              · rfl
              · exact absurd (by rw [hha, hb]; rfl) hhit
            have hlt : d.thread_count < 2 := by
              have := of_decide_eq_false htc2
              omega
            simp [hha, h1, hlt]
          · have hha2 : hitAt d env = false := by simpa using hha
            simp [hha2]
        have hf : (collect_coverage_data d env).data.force_disable_hit_count = true := by
          rw [ccd_flag_after, hw, h2]
          rfl
        have hcfg : (collect_coverage_data d env).data.config = d.config :=
          (ccd_frame d env).1
        have h3tail : hasMultithreadHit (collect_coverage_data d env).data es = true := by
          have heq : hasMultithreadHit d (MEvent.trap env :: es)
              = ((hitAt d env && decide (2 ≤ d.thread_count))
                  || hasMultithreadHit (collect_coverage_data d env).data es) := rfl
          rw [heq] at h3
          rcases Bool.or_eq_true_iff.mp h3 with hl | hr
          · exact absurd hl hhit
          · exact hr
        rw [hw, ih _ (by rw [hcfg]; exact h1) hf h3tail]
        simp

/-- Claim C5: across any run, re-firing a hit breakpoint is enabled exactly
when the configuration requests hit counts and the tracked count of cloned
threads is below two (at most one live non-main thread); the downgrade
warning is printed at most once per run, and exactly once on runs where a
breakpoint hit is processed with two or more cloned threads alive while
counting was requested. -/
theorem claim_C5 (d : Data) (es : List MEvent)
    (hinit : d.force_disable_hit_count = d.config.count) :
    ((runM d es).2 ≤ 1)
      ∧ (d.config.count = true → hasMultithreadHit d es = true →
          (runM d es).2 = 1)
      ∧ (∀ (e : Data) (env : CovEnv) (b : Bool),
          (collect_coverage_data e env).enabledRefire = some b →
          b = (e.config.count && decide (e.thread_count < 2))) := by
  refine ⟨runM_warn_le_one es d, ?_, fun e env b h => ccd_enable e env b h⟩
  intro hc hm
  exact runM_warn_one es d hc (by rw [hinit, hc]) hm

/-- A configuration requesting hit counts. -/
def cfgCount : Config := { cfg0 with count := true }

/-- An engine state with counting requested, a breakpoint at 100 and two
cloned threads alive. -/
def dMulti : Data :=
  { Data.new [trace100] cfgCount with breakpoints := [100], thread_count := 2 }

/-- Claim C5, witness: on a concrete multithreaded hit at breakpoint 100
the warning fires exactly once, the count is within the once-per-run bound,
and the refire flag passed to the breakpoint equals count && threads<2. -/
theorem claim_C5_witness :
    (runM dMulti
        [MEvent.trap { rip := some 101, processResult := Except.ok true, continue_ok := true }]).2 = 1
      ∧ (runM dMulti
          [MEvent.trap { rip := some 101, processResult := Except.ok true, continue_ok := true }]).2 ≤ 1
      ∧ false = (dMulti.config.count && decide (dMulti.thread_count < 2)) :=
  ⟨(claim_C5 dMulti
      [MEvent.trap { rip := some 101, processResult := Except.ok true, continue_ok := true }]
      rfl).2.1 rfl (by decide),
    (claim_C5 dMulti
      [MEvent.trap { rip := some 101, processResult := Except.ok true, continue_ok := true }]
      rfl).1,
    (claim_C5 dMulti
      [MEvent.trap { rip := some 101, processResult := Except.ok true, continue_ok := true }]
      rfl).2.2 dMulti
      { rip := some 101, processResult := Except.ok true, continue_ok := true }
      false (by decide)⟩

end Tarpaulin
